import Mathlib

/-!
# Verification of the timeln line-timing tool

Shallow embedding of the core of the `timeln` repository
(`src/timeln.rs`, `src/summarizer.rs`, `src/annotator.rs`,
`src/time_format.rs`, `src/error.rs`, `src/main.rs`) together with
theorems settling the specification claims about it.

Modelling conventions:
* `Duration` is the total nanosecond count of a Rust `std::time::Duration`
  (which stores `u64` seconds plus a sub-second nanosecond remainder;
  `as_nanos` returns the exact total as a `u128`).
* `Instant` is a nanosecond timestamp; `Instant::duration_since` is
  truncated subtraction (it saturates at zero when the argument is later).
* Regular-expression semantics, duration-to-string rendering and the ANSI
  colouring of the `colored` crate are external collaborators (spec section 1);
  they enter the model as abstract functions.
* The mpsc snapshot channel is a FIFO list; `send` appends at the tail.
-/

namespace Timeln

/-- Total nanoseconds of a Rust `std::time::Duration`. -/
abbrev Duration := Nat

/-- A monotone-clock timestamp (`std::time::Instant`), in nanoseconds. -/
abbrev Instant := Nat

/-- `Instant::duration_since`: saturating difference of two instants. -/
def durationSince (a b : Instant) : Duration := a - b

/-- `TimeSnapshot` (src/timeln.rs lines 83-87): the information collected at
each qualifying line. -/
structure TimeSnapshot where
  delta : Duration
  elapsed : Duration
deriving DecidableEq

/-- Rendering behaviour of the `colored` crate: how `.green()` and `.red()`
display a string. This is runtime-environment dependent (tty detection),
hence a parameter of the model. -/
structure ColorEnv where
  green : String → String
  red : String → String

/-- The no-colour rendering (output piped to a non-tty): colouring leaves the
text unchanged. -/
def plainEnv : ColorEnv := ⟨fun s => s, fun s => s⟩

/-- A `TimeFormat` (src/time_format.rs): a duration-to-string rendering
policy. Its floating-point formatting is delegated, so it is abstract here. -/
abbrev TimeFormat := Duration → String

/-- An abstract compiled regular expression. `firstMatch line` models
`re.captures_iter(line).next()`, returning the whole-match text `cap[0]`
of the first match when the line contains at least one match. -/
structure Regex where
  firstMatch : String → Option String

/-- An abstract regular-expression engine: `compile` models `Regex::new`,
failing on syntactically invalid patterns. -/
structure RegexEngine where
  compile : String → Except String Regex

/-- `TimelnError` (src/error.rs lines 51-57), with payloads reduced to the
data the claims need. -/
inductive TimelnError where
  | io : String → TimelnError
  | regex : String → TimelnError
  | sendError : TimeSnapshot → TimelnError
  | mutexPoisonedError : String → TimelnError
  | boxError : String → TimelnError
deriving DecidableEq

/-- `From<PoisonError<MutexGuard<T>>> for TimelnError` (src/error.rs lines
89-94): a poison error is converted into `MutexPoisonedError` with a
formatted message — it is propagated as an error, not recovered. -/
def TimelnError.fromPoison (errDisplay : String) : TimelnError :=
  .mutexPoisonedError ("Mutex was poisoned: " ++ errDisplay)

/-- A `std::sync::Mutex` cell: the protected value plus its poison flag. -/
structure MutexCell (α : Type) where
  value : α
  poisoned : Bool
deriving DecidableEq

/-- `Mutex::lock`: `Ok(guard)` normally; when the mutex is poisoned,
`Err(PoisonError(guard))` — the error still carries the guard, so the
last-known value remains recoverable through `PoisonError::into_inner`. -/
def MutexCell.lock {α : Type} (m : MutexCell α) : Except α α :=
  if m.poisoned then .error m.value else .ok m.value

/-- `lock().unwrap()` as written in the ctrl-c handler (src/timeln.rs lines
170-171, 182): on a poisoned mutex `unwrap` panics, aborting the handler;
`none` models the panic. -/
def lockUnwrap {α : Type} (m : MutexCell α) : Option α :=
  match m.lock with
  | .ok v => some v
  | .error _ => none

/-- Rust `char::is_whitespace`: the Unicode White_Space property — the
code points U+0009..U+000D, U+0020, U+0085, U+00A0, U+1680,
U+2000..U+200A, U+2028, U+2029, U+202F, U+205F and U+3000. This is wider
than ASCII whitespace: it also trims e.g. the no-break space U+00A0 and the
line separator U+2028. -/
def rustIsWhitespace (c : Char) : Bool :=
  decide ((0x09 ≤ c.toNat ∧ c.toNat ≤ 0x0D) ∨ c.toNat = 0x20 ∨
    c.toNat = 0x85 ∨ c.toNat = 0xA0 ∨ c.toNat = 0x1680 ∨
    (0x2000 ≤ c.toNat ∧ c.toNat ≤ 0x200A) ∨ c.toNat = 0x2028 ∨
    c.toNat = 0x2029 ∨ c.toNat = 0x202F ∨ c.toNat = 0x205F ∨
    c.toNat = 0x3000)

/-- `str::trim` on the character list: drop leading and trailing Unicode
whitespace (this includes the line's terminating newline). -/
def rustTrimList (l : List Char) : List Char :=
  ((l.dropWhile rustIsWhitespace).reverse.dropWhile rustIsWhitespace).reverse

/-- Rust `str::trim`, as used on the read buffer (src/timeln.rs lines 226,
247; src/main.rs lines 130, 142). -/
def rustTrim (s : String) : String := ⟨rustTrimList s.data⟩

/-- Worker for Rust `str::replace` with a non-empty pattern: scan left to
right, replacing each leftmost non-overlapping occurrence of `pat` by
`rep`. (For `pat = []` this worker never fires and returns the input.) -/
def replaceNe (pat rep : List Char) : List Char → List Char
  | [] => []
  | c :: rest =>
    if h : pat ≠ [] ∧ pat = (c :: rest).take pat.length then
      rep ++ replaceNe pat rep ((c :: rest).drop pat.length)
    else
      c :: replaceNe pat rep rest
termination_by l => l.length
decreasing_by
  all_goals
    simp only [List.length_drop, List.length_cons]
  · have hp : 0 < pat.length := List.length_pos.mpr h.1
    omega
  · omega

/-- Rust `str::replace`, as called on the trimmed buffer in the filter
branch (src/timeln.rs lines 224-227): every non-overlapping occurrence of
`pat` in `s` is replaced by `rep`; an empty pattern matches at every
character boundary, so `rep` is inserted before, between and after the
characters of `s`. -/
def rustReplace (s pat rep : String) : String :=
  if pat.data = [] then
    ⟨rep.data ++ s.data.foldr (fun c acc => c :: (rep.data ++ acc)) []⟩
  else
    ⟨replaceNe pat.data rep.data s.data⟩

/-- `SimpleAnnotator` (src/annotator.rs lines 24-27). -/
structure SimpleAnnotator where
  color : Bool
  time_format : TimeFormat

/-- `SimpleAnnotator::format_line` (src/annotator.rs lines 31-41). -/
def SimpleAnnotator.format_line (env : ColorEnv) (a : SimpleAnnotator)
    (line : String) (now delta : Duration) : String :=
  let time_str := a.time_format now
  let delta_str := a.time_format delta
  if a.color then
    env.green ("[time: " ++ time_str ++ ", delta: " ++ delta_str ++ "]") ++ " " ++ line
  else
    "[time: " ++ time_str ++ ", delta: " ++ delta_str ++ "] " ++ line

namespace SimpleSummarizer

/-- `SimpleSummarizer::summarize` (src/summarizer.rs lines 28-35). -/
def summarize (env : ColorEnv) (color : Bool) (total_lines total_matches : Nat)
    (total_time : Duration) (time_format : TimeFormat) : String :=
  let time_str := time_format total_time
  let s := "[Processed Lines: " ++ toString total_lines ++ ", Matches: " ++
    toString total_matches ++ ", Total Time: " ++ time_str ++ "]"
  if color then env.green s else s

end SimpleSummarizer

namespace DetailedSummarizer

/-- The average-time computation of `DetailedSummarizer::summarize`
(src/summarizer.rs lines 46-52): `total_time.as_nanos() as u64` truncates
the `u128` nanosecond count to 64 bits, then divides by `total_lines as u64`
when `total_lines > 0`, else `Duration::default()` (zero). -/
def avgTimePerLine (total_lines : Nat) (total_time : Duration) : Duration :=
  if total_lines > 0 then (total_time % 2 ^ 64) / total_lines else 0

/-- `DetailedSummarizer::summarize` (src/summarizer.rs lines 44-59). -/
def summarize (env : ColorEnv) (color : Bool) (total_lines total_matches : Nat)
    (total_time : Duration) (time_format : TimeFormat) : String :=
  let time_str := time_format total_time
  let avg_time_str := time_format (avgTimePerLine total_lines total_time)
  let s := "Processed " ++ toString total_lines ++ " lines in " ++ time_str ++
    " with " ++ toString total_matches ++ " matches. Average time per line: " ++
    avg_time_str
  if color then env.green s else s

end DetailedSummarizer

/-- `TimelnOpt` (src/argopt.rs lines 8-15): the parsed CLI flags. -/
structure TimelnOpt where
  color : Bool
  regex : Option String
  plot : Bool

/-- `TimelnContext` (src/timeln.rs lines 101-112), restricted to the fields
the claims depend on. `summarizerColor` is the `color` field of the
`SimpleSummarizer` installed by `new`; the reader, channel ends and counter
mutexes are passed explicitly to the functions that use them. -/
structure TimelnContext where
  annotator : SimpleAnnotator
  summarizerColor : Bool
  regex : Option Regex
  start_time : Instant
  plot : Bool

/-- `TimelnContext::new` (src/timeln.rs lines 116-155): captures
`start_time`, builds a `SimpleAnnotator` with `SecondsFormat` (here the
abstract `seconds_format`), compiles the optional pattern — failing with a
`Regex` error before any line is read — and installs a `SimpleSummarizer`
with the `color` flag. Counters start at zero. -/
def TimelnContext.new (engine : RegexEngine) (seconds_format : TimeFormat)
    (start_time : Instant) (opt : TimelnOpt) : Except TimelnError TimelnContext :=
  match opt.regex with
  | some r =>
    match engine.compile r with
    | .error e => .error (.regex e)
    | .ok re =>
      .ok ⟨⟨opt.color, seconds_format⟩, opt.color, some re, start_time, opt.plot⟩
  | none => .ok ⟨⟨opt.color, seconds_format⟩, opt.color, none, start_time, opt.plot⟩

/-- The mutable state threaded through the processing loop of
`TimelnContext::run` (src/timeln.rs lines 198-253): the two shared counters,
the `last_time` timestamp, the FIFO contents of the snapshot channel
(oldest first; `tx.send` appends), and the lines printed so far. -/
structure RunState where
  total_lines : Nat
  total_matches : Nat
  last_time : Instant
  sent : List TimeSnapshot
  output : List String
deriving DecidableEq

/-- One iteration of the loop body of `TimelnContext::run`
(src/timeln.rs lines 199-252) on a line read into `buffer` with
`Instant::now()` returning `now`: increment `total_lines`; with a filter,
only a line whose first match is `some cap` is timed, counted as a match,
highlighted via `replace(cap, red(cap))` and printed; without a filter every
line is timed and printed. `delta` is measured from `last_time`, `elapsed`
from `start_time`, and `last_time` advances to `now` on qualifying lines. -/
def processLine (env : ColorEnv) (ctx : TimelnContext) (now : Instant)
    (buffer : String) (s : RunState) : RunState :=
  let s1 : RunState := { s with total_lines := s.total_lines + 1 }
  match ctx.regex with
  | some re =>
    match re.firstMatch buffer with
    | some cap =>
      let delta := durationSince now s1.last_time
      let snap : TimeSnapshot := ⟨delta, durationSince now ctx.start_time⟩
      let line := rustReplace (rustTrim buffer) cap (env.red cap)
      let out := ctx.annotator.format_line env line (durationSince now ctx.start_time) delta
      { s1 with last_time := now,
                total_matches := s1.total_matches + 1,
                sent := s1.sent ++ [snap],
                output := s1.output ++ [out] }
    | none => s1
  | none =>
    let delta := durationSince now s1.last_time
    let snap : TimeSnapshot := ⟨delta, durationSince now ctx.start_time⟩
    let out := ctx.annotator.format_line env (rustTrim buffer) (durationSince now ctx.start_time) delta
    { s1 with last_time := now,
              sent := s1.sent ++ [snap],
              output := s1.output ++ [out] }

/-- The read loop of `TimelnContext::run`: the input is the list of lines
the reader yields before the zero-byte end-of-stream read, each paired with
the `Instant::now()` value captured for it. -/
def runLoop (env : ColorEnv) (ctx : TimelnContext)
    (input : List (Instant × String)) (s : RunState) : RunState :=
  match input with
  | [] => s
  | (now, buffer) :: rest => runLoop env ctx rest (processLine env ctx now buffer s)

/-- `TimelnContext::run` (src/timeln.rs lines 158-256) viewed as a state
transformer: `last_time` starts at `runStart`, the `Instant::now()` captured
at src/timeln.rs line 159 — note this is captured at the start of `run`, not
the `start_time` captured earlier in `new`. The counters start at the zeros
installed by `new`; the channel starts empty. -/
def TimelnContext.run (env : ColorEnv) (ctx : TimelnContext)
    (runStart : Instant) (input : List (Instant × String)) : RunState :=
  runLoop env ctx input ⟨0, 0, runStart, [], []⟩

/-- The ctrl-c handler body (src/timeln.rs lines 169-195): read both
counters with `lock().unwrap()` — a poisoned mutex makes `unwrap` panic, so
the handler dies without reporting (modelled as `none`) — print the
`SimpleSummarizer` summary, drain the channel, and call
`plot_deltas(..., "deltas.svg")` and `plot_times(..., "times.svg")`
unconditionally (there is no `if self.plot` test on this path), then
`std::process::exit(0)`. The result is the printed summary together with
the list of chart files written; the numeric series handed to the plotting
library are delegated. -/
def ctrlcHandler (env : ColorEnv) (ctx : TimelnContext)
    (total_lines total_matches : MutexCell Nat)
    (nowElapsed : Duration) : Option (String × List String) :=
  match lockUnwrap total_lines, lockUnwrap total_matches with
  | some l, some m =>
    some (SimpleSummarizer.summarize env ctx.summarizerColor l m nowElapsed
            ctx.annotator.time_format,
          ["deltas.svg", "times.svg"])
  | _, _ => none

/-- `TimelnContext::summarize_and_plot` (src/timeln.rs lines 259-289): lock
both counters with `?` — a poisoned mutex is converted by the `From` impl of
src/error.rs into `MutexPoisonedError` and propagated — print the summary,
and only when `self.plot` is set drain the channel and write the two chart
files. Returns the summary and the chart files written. -/
def TimelnContext.summarize_and_plot (env : ColorEnv) (ctx : TimelnContext)
    (total_lines total_matches : MutexCell Nat)
    (nowElapsed : Duration) : Except TimelnError (String × List String) :=
  match total_lines.lock with
  | .error _ => .error (TimelnError.fromPoison "poisoned lock: another task failed inside")
  | .ok l =>
    match total_matches.lock with
    | .error _ => .error (TimelnError.fromPoison "poisoned lock: another task failed inside")
    | .ok m =>
      .ok (SimpleSummarizer.summarize env ctx.summarizerColor l m nowElapsed
             ctx.annotator.time_format,
           if ctx.plot then ["deltas.svg", "times.svg"] else [])

/-- The whole-program behaviour at startup (src/main.rs lines 72-160,
src/timeln.rs `new` + `run`): when the pattern fails to compile the program
returns the error before entering the read loop — zero lines are consumed,
the counters stay zero, nothing is printed and the process exit code is 1
(a Rust `main` returning `Err` exits non-zero). Otherwise the loop runs to
end-of-stream and the process exits 0. -/
structure MainResult where
  exitCode : Nat
  linesConsumed : Nat
  total_lines : Nat
  total_matches : Nat
  output : List String
deriving DecidableEq

/-- The program entry: construct the context, then run the loop on the
input. On a construction error no input is read. -/
def timelnMain (engine : RegexEngine) (env : ColorEnv)
    (seconds_format : TimeFormat) (start_time runStart : Instant)
    (opt : TimelnOpt) (input : List (Instant × String)) : MainResult :=
  match TimelnContext.new engine seconds_format start_time opt with
  | .error _ => ⟨1, 0, 0, 0, []⟩
  | .ok ctx =>
    let s := ctx.run env runStart input
    ⟨0, s.total_lines, s.total_lines, s.total_matches, s.output⟩

/-- Steps of the process-level interleaving model for the finalize paths.
`readLine` is one iteration of the read loop; `finalizeBody` is one
execution of the summarize/plot body (the body shared by the ctrl-c handler,
src/timeln.rs lines 170-193, and `summarize_and_plot`, lines 259-288);
`procExit` is process termination. -/
inductive FinalStep where
  | readLine : FinalStep
  | finalizeBody : FinalStep
  | procExit : FinalStep
deriving DecidableEq

/-- The main thread's step sequence on an `n`-line input that reaches
end-of-stream: `n` loop iterations, then the normal-path finalize
(`summarize_and_plot`, called after `run` returns), then normal exit.
`TimelnContext` holds no finalization flag, so no step consults a guard. -/
def mainTrace (n : Nat) : List FinalStep :=
  List.replicate n .readLine ++ [.finalizeBody, .procExit]

/-- The ctrl-c handler's step sequence (src/timeln.rs lines 169-195): it
unconditionally runs the summarize/plot body, then `std::process::exit(0)`.
It checks no guard before doing so. -/
def handlerTrace : List FinalStep := [.finalizeBody, .procExit]

/-- The process-level trace when the asynchronous interrupt fires after the
main thread has completed `k` steps: the handler then runs to completion and
force-exits, so the execution consists of the first `k` main-thread steps
followed by the handler's steps. `k` past the end of `mainTrace` means the
interrupt never fires. -/
def interruptedTrace (n k : Nat) : List FinalStep :=
  (mainTrace n).take k ++ handlerTrace

/-- How many times the summarize/plot body executes in a trace. -/
def finalizeCount (t : List FinalStep) : Nat :=
  t.count .finalizeBody

/-- Convenient constructor for the context `TimelnContext.new` builds on
success: a `SimpleAnnotator` and a `SimpleSummarizer` sharing the `color`
flag, the compiled filter, the captured `start_time` and the `plot` flag. -/
def mkCtx (color : Bool) (fmt : TimeFormat) (re : Option Regex)
    (start_time : Instant) (plot : Bool) : TimelnContext :=
  ⟨⟨color, fmt⟩, color, re, start_time, plot⟩

/-- The `last_time` value after the loop processes `input` with no filter:
the timestamp of the last line, or the starting value for an empty input. -/
def lastTimeAfter (last : Instant) : List (Instant × String) → Instant
  | [] => last
  | (now, _) :: rest => lastTimeAfter now rest

/-- The snapshots the unfiltered loop sends, in reading order: line `i` read
at instant `now` contributes delta `now - previous` (previous = `last` for
the first line) and elapsed `now - startTime`. -/
def expectedSnapshots (startTime : Instant) (last : Instant) :
    List (Instant × String) → List TimeSnapshot
  | [] => []
  | (now, _) :: rest =>
    ⟨durationSince now last, durationSince now startTime⟩ ::
      expectedSnapshots startTime now rest

/-- The lines the unfiltered loop prints, in reading order, as the source
formats them. -/
def expectedOutputs (env : ColorEnv) (ctx : TimelnContext) (last : Instant) :
    List (Instant × String) → List String
  | [] => []
  | (now, buffer) :: rest =>
    ctx.annotator.format_line env (rustTrim buffer)
        (durationSince now ctx.start_time) (durationSince now last) ::
      expectedOutputs env ctx now rest

/-- The lines the unfiltered colour-off loop prints, written out by the
claimed shape: a `[time: E, delta: D]` annotation followed by one space and
the raw line with leading and trailing whitespace removed. -/
def annotatedOutputs (fmt : TimeFormat) (startTime last : Instant) :
    List (Instant × String) → List String
  | [] => []
  | (now, buffer) :: rest =>
    ("[time: " ++ fmt (durationSince now startTime) ++ ", delta: " ++
        fmt (durationSince now last) ++ "] " ++ rustTrim buffer) ::
      annotatedOutputs fmt startTime now rest

/-- The lines the filtered colour-off loop prints when highlighting renders
identically (no-colour environment): each matching line yields the
annotation, one space, and the trimmed raw line; non-matching lines yield
nothing and do not advance `last`. -/
def annotatedOutputsFiltered (re : Regex) (fmt : TimeFormat)
    (startTime last : Instant) : List (Instant × String) → List String
  | [] => []
  | (now, buffer) :: rest =>
    match re.firstMatch buffer with
    | some _ =>
      ("[time: " ++ fmt (durationSince now startTime) ++ ", delta: " ++
          fmt (durationSince now last) ++ "] " ++ rustTrim buffer) ::
        annotatedOutputsFiltered re fmt startTime now rest
    | none => annotatedOutputsFiltered re fmt startTime last rest

/-- A concrete time format rendering the nanosecond count, for the closed
instances below. -/
def fmtNat : TimeFormat := fun d => toString d

/-- A concrete unfiltered context: `start_time = 0`, no colour, no `--plot`. -/
def ctxNoFilter : TimelnContext := mkCtx false fmtNat none 0 false

/-- A concrete regular-expression engine on which the pattern `"("` is
syntactically invalid, as in the spec scenario; every other pattern compiles
to a regex with no matches. -/
def parenEngine : RegexEngine :=
  ⟨fun p => if p = "(" then .error "regex parse error: unclosed group"
            else .ok ⟨fun _ => none⟩⟩

/-- A concrete filter matching every line that contains the character `x`,
standing for the pattern `"x"` of the spec scenario. -/
def regexX : Regex := ⟨fun s => if s.data.contains 'x' then some "x" else none⟩

/-- Full characterization of the unfiltered loop: starting from state `s`,
processing `input` adds one to `total_lines` per line, leaves
`total_matches` unchanged, moves `last_time` to the last read instant, and
appends the expected snapshots and output lines in reading order. -/
theorem runLoop_noFilter (env : ColorEnv) (ctx : TimelnContext)
    (hre : ctx.regex = none) (input : List (Instant × String)) (s : RunState) :
    runLoop env ctx input s =
      ⟨s.total_lines + input.length, s.total_matches,
       lastTimeAfter s.last_time input,
       s.sent ++ expectedSnapshots ctx.start_time s.last_time input,
       s.output ++ expectedOutputs env ctx s.last_time input⟩ := by
  induction input generalizing s with
  | nil => simp [runLoop, lastTimeAfter, expectedSnapshots, expectedOutputs]
  | cons p rest ih =>
    obtain ⟨now, buffer⟩ := p
    simp only [runLoop, processLine, hre]
    rw [ih]
    simp [lastTimeAfter, expectedSnapshots, expectedOutputs, RunState.mk.injEq]
    omega

/-- The expected snapshot list has one snapshot per input line. -/
theorem expectedSnapshots_length (startTime last : Instant)
    (input : List (Instant × String)) :
    (expectedSnapshots startTime last input).length = input.length := by
  induction input generalizing last with
  | nil => rfl
  | cons p rest ih =>
    obtain ⟨now, buffer⟩ := p
    simp [expectedSnapshots, ih]

/-- With the colour flag off, the loop's output lines have exactly the
annotated shape of `annotatedOutputs`. -/
theorem expectedOutputs_noColor (env : ColorEnv) (fmt : TimeFormat)
    (startTime : Instant) (plot : Bool) (last : Instant)
    (input : List (Instant × String)) :
    expectedOutputs env (mkCtx false fmt none startTime plot) last input
      = annotatedOutputs fmt startTime last input := by
  induction input generalizing last with
  | nil => rfl
  | cons p rest ih =>
    obtain ⟨now, buffer⟩ := p
    simp [expectedOutputs, annotatedOutputs, SimpleAnnotator.format_line, mkCtx]
    exact ih now

/-- Counter effect of one loop iteration under an active filter:
`total_lines` always gains one, `total_matches` gains one exactly on a
matching line. -/
theorem processLine_counts_filter (env : ColorEnv) (ctx : TimelnContext)
    (re : Regex) (hre : ctx.regex = some re) (now : Instant) (buffer : String)
    (s : RunState) :
    (processLine env ctx now buffer s).total_lines = s.total_lines + 1 ∧
    (processLine env ctx now buffer s).total_matches =
      s.total_matches + (if (re.firstMatch buffer).isSome then 1 else 0) := by
  simp only [processLine, hre]
  cases hm : re.firstMatch buffer <;> simp

/-- Counter characterization of the filtered loop: `total_lines` grows by
the number of read lines, `total_matches` by the number of lines whose
first match exists. -/
theorem runLoop_filter_counts (env : ColorEnv) (ctx : TimelnContext)
    (re : Regex) (hre : ctx.regex = some re) (input : List (Instant × String))
    (s : RunState) :
    (runLoop env ctx input s).total_lines = s.total_lines + input.length ∧
    (runLoop env ctx input s).total_matches =
      s.total_matches + input.countP (fun q => (re.firstMatch q.2).isSome) := by
  induction input generalizing s with
  | nil => simp [runLoop]
  | cons p rest ih =>
    obtain ⟨now, buffer⟩ := p
    have hp := processLine_counts_filter env ctx re hre now buffer s
    obtain ⟨ih1, ih2⟩ := ih (processLine env ctx now buffer s)
    simp only [runLoop]
    refine ⟨?_, ?_⟩
    · rw [ih1, hp.1]
      simp
      omega
    · rw [ih2, hp.2]
      simp [List.countP_cons]
      cases hm : (re.firstMatch buffer).isSome with
      | false => simp [hm]
      | true => simp [hm]; omega

/-- The newline character has the Unicode White_Space property. -/
theorem rustIsWhitespace_newline : rustIsWhitespace '\n' = true := by decide

/-- Appending a final newline to a character list does not change its
trimmed form. -/
theorem rustTrimList_append_newline (l : List Char) :
    rustTrimList (l ++ ['\n']) = rustTrimList l := by
  unfold rustTrimList
  rw [List.dropWhile_append]
  by_cases h : (l.dropWhile rustIsWhitespace).isEmpty
  · rw [List.isEmpty_iff] at h
    simp [h, List.dropWhile_cons, rustIsWhitespace_newline]
  · rw [List.isEmpty_iff] at h
    rw [if_neg (by simpa [List.isEmpty_iff] using h)]
    simp [List.reverse_append, List.dropWhile_cons, rustIsWhitespace_newline]

/-- Trimming removes the line's terminating newline. -/
theorem rustTrim_append_newline (s : String) :
    rustTrim (s ++ "\n") = rustTrim s := by
  have h : (s ++ "\n").data = s.data ++ ['\n'] := String.data_append s "\n"
  simp [rustTrim, h, rustTrimList_append_newline]

/-- Interleaving a character list with copies of the empty list is the
identity fold. -/
theorem foldr_cons_nilPad (l : List Char) :
    l.foldr (fun c acc => c :: ([] ++ acc)) [] = l := by
  induction l with
  | nil => rfl
  | cons c rest ih => simp [ih]

/-- Replacing occurrences of a non-empty pattern by the pattern itself
changes nothing (bounded-length induction for the worker). -/
theorem replaceNe_self_bounded (pat : List Char) :
    ∀ (n : Nat) (l : List Char), l.length ≤ n → replaceNe pat pat l = l := by
  intro n
  induction n with
  | zero =>
    intro l hl
    have hnil : l = [] := List.eq_nil_of_length_eq_zero (Nat.le_zero.mp hl)
    subst hnil
    simp [replaceNe]
  | succ n ih =>
    intro l hl
    cases l with
    | nil => simp [replaceNe]
    | cons c rest =>
      rw [replaceNe]
      by_cases h : pat ≠ [] ∧ pat = (c :: rest).take pat.length
      · rw [dif_pos h]
        have hp : 0 < pat.length := List.length_pos.mpr h.1
        have hl1 : rest.length + 1 ≤ n + 1 := by simpa using hl
        have hlen : ((c :: rest).drop pat.length).length ≤ n := by
          simp only [List.length_drop, List.length_cons]
          omega
        rw [ih _ hlen]
        conv_rhs => rw [← List.take_append_drop pat.length (c :: rest)]
        rw [← h.2]
      · rw [dif_neg h]
        have hlen : rest.length ≤ n := by
          simp only [List.length_cons] at hl
          omega
        rw [ih rest hlen]

/-- `replaceNe pat pat` is the identity. -/
theorem replaceNe_self (pat l : List Char) : replaceNe pat pat l = l :=
  replaceNe_self_bounded pat l.length l (Nat.le_refl _)

/-- Rust `str::replace` with identical pattern and replacement — the shape
`line.replace(cap, red(cap))` takes in a no-colour environment — returns
the string unchanged. -/
theorem rustReplace_self (s pat : String) : rustReplace s pat pat = s := by
  unfold rustReplace
  by_cases h : pat.data = []
  · rw [if_pos h, h, List.nil_append, foldr_cons_nilPad]
  · rw [if_neg h, replaceNe_self]

/-- Output characterization of the filtered loop when highlighting renders
identically: starting from state `s`, the printed lines are exactly the
annotated trimmed matching lines, in reading order. -/
theorem runLoop_filter_output (env : ColorEnv) (fmt : TimeFormat)
    (plot : Bool) (startTime : Instant) (re : Regex)
    (hred : ∀ s : String, env.red s = s)
    (input : List (Instant × String)) (s : RunState) :
    (runLoop env (mkCtx false fmt (some re) startTime plot) input s).output
      = s.output ++ annotatedOutputsFiltered re fmt startTime s.last_time input := by
  induction input generalizing s with
  | nil => simp [runLoop, annotatedOutputsFiltered]
  | cons p rest ih =>
    obtain ⟨now, buffer⟩ := p
    have hre : (mkCtx false fmt (some re) startTime plot).regex = some re := rfl
    simp only [runLoop, processLine, hre]
    cases hm : re.firstMatch buffer with
    | some cap =>
      simp only [hm]
      rw [ih]
      simp [annotatedOutputsFiltered, hm, SimpleAnnotator.format_line, mkCtx,
        hred, rustReplace_self]
    | none =>
      simp only [hm]
      rw [ih]
      simp [annotatedOutputsFiltered, hm]

/-- Claim C1 (refuted by the code): `TimelnContext` carries no finalization
guard, so the summarize/plot body is not exactly-once across interleavings.
On a 3-line input that reaches end-of-stream, if the interrupt fires after
the main thread has completed its own finalize (`summarize_and_plot`) but
before process exit — step index 4 of `mainTrace 3` — the ctrl-c handler
(src/timeln.rs lines 169-195) reruns the full summarize/plot body: the body
executes twice in that interleaving, while the normal uninterrupted run
executes it once. -/
theorem finalize_body_can_run_twice :
    finalizeCount (interruptedTrace 3 4) = 2 ∧
    finalizeCount (mainTrace 3) = 1 ∧
    interruptedTrace 3 4 =
      [.readLine, .readLine, .readLine, .finalizeBody, .finalizeBody, .procExit] := by
  decide

/-- Claim C2 (refuted by the code): when the counters mutex is poisoned, the
interrupt path does not recover the last-known value 42 — `lock().unwrap()`
panics (src/timeln.rs lines 170-171), killing the handler with no summary —
and `summarize_and_plot` propagates `MutexPoisonedError` through the `From`
impl of src/error.rs lines 89-94 instead of recovering. The last conjunct
shows the value was recoverable: the `PoisonError` still carries 42, and on
a healthy mutex the very same handler reports it. -/
theorem poisoned_mutex_faults_interrupt_path :
    (MutexCell.lock ⟨42, true⟩ = Except.error 42) ∧
    (ctrlcHandler plainEnv ctxNoFilter ⟨42, true⟩ ⟨7, false⟩ 100 = none) ∧
    (ctxNoFilter.summarize_and_plot plainEnv ⟨42, true⟩ ⟨7, false⟩ 100
      = Except.error (TimelnError.mutexPoisonedError
          "Mutex was poisoned: poisoned lock: another task failed inside")) ∧
    (ctrlcHandler plainEnv ctxNoFilter ⟨42, false⟩ ⟨7, false⟩ 100
      = some ("[Processed Lines: 42, Matches: 7, Total Time: 100]",
              ["deltas.svg", "times.svg"])) := by
  refine ⟨rfl, rfl, rfl, rfl⟩

/-- Claim C3 (refuted by the code): with the `--plot` flag absent
(`ctxNoFilter.plot = false`), the normal finalize path writes no chart file,
but the ctrl-c handler (src/timeln.rs lines 192-193) writes both
`deltas.svg` and `times.svg` unconditionally — it never tests `self.plot`. -/
theorem interrupt_writes_charts_without_plot_flag :
    (ctxNoFilter.plot = false) ∧
    ((ctrlcHandler plainEnv ctxNoFilter ⟨3, false⟩ ⟨0, false⟩ 100).map Prod.snd
      = some ["deltas.svg", "times.svg"]) ∧
    ((ctxNoFilter.summarize_and_plot plainEnv ⟨3, false⟩ ⟨0, false⟩ 100).toOption.map
        Prod.snd = some []) := by
  refine ⟨rfl, rfl, rfl⟩

/-- Claim C4: with no filter configured, running the loop to end-of-stream
on any `N`-line input leaves `total_lines = N`, and exactly `N` snapshots
have been sent on the channel, in reading order (`expectedSnapshots` lists
them first line first). -/
theorem run_noFilter_counts_and_snapshots (env : ColorEnv) (fmt : TimeFormat)
    (color plot : Bool) (startTime runStart : Instant)
    (input : List (Instant × String)) :
    ((mkCtx color fmt none startTime plot).run env runStart input).total_lines
      = input.length ∧
    ((mkCtx color fmt none startTime plot).run env runStart input).sent
      = expectedSnapshots startTime runStart input ∧
    ((mkCtx color fmt none startTime plot).run env runStart input).sent.length
      = input.length := by
  have h := runLoop_noFilter env (mkCtx color fmt none startTime plot) rfl input
    ⟨0, 0, runStart, [], []⟩
  have h2 : (mkCtx color fmt none startTime plot).run env runStart input =
      ⟨input.length, 0, lastTimeAfter runStart input,
       expectedSnapshots startTime runStart input,
       expectedOutputs env (mkCtx color fmt none startTime plot) runStart input⟩ := by
    unfold TimelnContext.run
    rw [h]
    simp [mkCtx]
  rw [h2]
  exact ⟨rfl, rfl, expectedSnapshots_length startTime runStart input⟩

/-- Claim C5: with a filter, at end-of-stream `total_matches` equals the
number of lines containing a match and `total_lines` counts every read
line; after every prefix of the execution `total_matches ≤ total_lines`,
and both counters are monotonically non-decreasing along the execution. -/
theorem run_filter_counts_and_invariants (env : ColorEnv) (fmt : TimeFormat)
    (color plot : Bool) (startTime runStart : Instant) (re : Regex)
    (input : List (Instant × String)) :
    ((mkCtx color fmt (some re) startTime plot).run env runStart input).total_matches
      = input.countP (fun q => (re.firstMatch q.2).isSome) ∧
    ((mkCtx color fmt (some re) startTime plot).run env runStart input).total_lines
      = input.length ∧
    (∀ k, ((mkCtx color fmt (some re) startTime plot).run env runStart
            (input.take k)).total_matches
        ≤ ((mkCtx color fmt (some re) startTime plot).run env runStart
            (input.take k)).total_lines) ∧
    (∀ k k', k ≤ k' →
      ((mkCtx color fmt (some re) startTime plot).run env runStart
          (input.take k)).total_lines
        ≤ ((mkCtx color fmt (some re) startTime plot).run env runStart
            (input.take k')).total_lines ∧
      ((mkCtx color fmt (some re) startTime plot).run env runStart
          (input.take k)).total_matches
        ≤ ((mkCtx color fmt (some re) startTime plot).run env runStart
            (input.take k')).total_matches) := by
  have key : ∀ l : List (Instant × String),
      ((mkCtx color fmt (some re) startTime plot).run env runStart l).total_lines
        = l.length ∧
      ((mkCtx color fmt (some re) startTime plot).run env runStart l).total_matches
        = l.countP (fun q => (re.firstMatch q.2).isSome) := by
    intro l
    have h := runLoop_filter_counts env (mkCtx color fmt (some re) startTime plot)
      re rfl l ⟨0, 0, runStart, [], []⟩
    constructor
    · simpa [TimelnContext.run] using h.1
    · simpa [TimelnContext.run] using h.2
  refine ⟨(key input).2, (key input).1, ?_, ?_⟩
  · intro k
    rw [(key (input.take k)).1, (key (input.take k)).2]
    exact List.countP_le_length _
  · intro k k' hkk
    have hsub : List.Sublist (input.take k) (input.take k') := by
      have h1 : (input.take k').take k = input.take k := by
        rw [List.take_take, Nat.min_eq_left hkk]
      exact h1 ▸ List.take_sublist k (input.take k')
    constructor
    · rw [(key (input.take k)).1, (key (input.take k')).1]
      simp [List.length_take]
      omega
    · rw [(key (input.take k)).2, (key (input.take k')).2]
      exact hsub.countP_le _

/-- Witness for claim C5's theorem on the spec scenario input
`x1 / y2 / x3` with the filter `x`: two matches out of three lines, and
the match counter does not decrease from the 1-line prefix to the whole
input. -/
theorem run_filter_counts_and_invariants_witness :
    (((mkCtx false fmtNat (some regexX) 0 false).run plainEnv 0
        [(1, "x1\n"), (2, "y2\n"), (3, "x3\n")]).total_matches = 2) ∧
    (((mkCtx false fmtNat (some regexX) 0 false).run plainEnv 0
        ([(1, "x1\n"), (2, "y2\n"), (3, "x3\n")].take 1)).total_matches
      ≤ ((mkCtx false fmtNat (some regexX) 0 false).run plainEnv 0
        ([(1, "x1\n"), (2, "y2\n"), (3, "x3\n")].take 3)).total_matches) :=
  ⟨(run_filter_counts_and_invariants plainEnv fmtNat false false 0 0 regexX
      [(1, "x1\n"), (2, "y2\n"), (3, "x3\n")]).1.trans (by decide),
   ((run_filter_counts_and_invariants plainEnv fmtNat false false 0 0 regexX
      [(1, "x1\n"), (2, "y2\n"), (3, "x3\n")]).2.2.2 1 3 (by decide)).2⟩

/-- Claim C6 counterexample: `last_time` is NOT the `start_time` captured by
`new` — `run` reassigns it from a fresh `Instant::now()` at its own start
(src/timeln.rs line 159). With `start_time = 0` (in `ctxNoFilter`), `run`
entered at instant 5, and the first line read at instant 10, the first
snapshot's delta is 5 while its elapsed time is 10: the claimed equality
fails. -/
theorem first_delta_ne_first_elapsed :
    ((ctxNoFilter.run plainEnv 5 [(10, "a\n")]).sent.map TimeSnapshot.delta
      = [5]) ∧
    ((ctxNoFilter.run plainEnv 5 [(10, "a\n")]).sent.map TimeSnapshot.elapsed
      = [10]) ∧
    (5 : Duration) ≠ 10 := by
  refine ⟨rfl, rfl, by decide⟩

/-- Claim C6 (amended): the delta of the first qualifying line equals
`now - runStart` where `runStart` is the fresh timestamp captured at the
start of `run` — not the `StartTime` captured at construction. It equals
the line's elapsed time exactly when the two timestamps coincide, and with
`start_time ≤ runStart` it never exceeds the elapsed time. -/
theorem first_snapshot_delta_from_run_start (env : ColorEnv) (fmt : TimeFormat)
    (color plot : Bool) (startTime runStart now : Instant) (line : String)
    (rest : List (Instant × String)) :
    (((mkCtx color fmt none startTime plot).run env runStart
        ((now, line) :: rest)).sent.head?
      = some ⟨durationSince now runStart, durationSince now startTime⟩) ∧
    (runStart = startTime →
      ((mkCtx color fmt none startTime plot).run env runStart
          ((now, line) :: rest)).sent.head?
        = some ⟨durationSince now startTime, durationSince now startTime⟩) ∧
    (startTime ≤ runStart →
      durationSince now runStart ≤ durationSince now startTime) := by
  have h := (run_noFilter_counts_and_snapshots env fmt color plot startTime
    runStart ((now, line) :: rest)).2.1
  refine ⟨?_, ?_, ?_⟩
  · rw [h]
    rfl
  · intro he
    rw [h, he]
    rfl
  · intro hle
    exact Nat.sub_le_sub_left hle now

/-- Witness for claim C6's amended theorem: with `start_time = runStart = 3`
and the first line read at instant 10, the first snapshot is `⟨7, 7⟩` and
delta does not exceed elapsed. -/
theorem first_snapshot_delta_from_run_start_witness :
    (((mkCtx false fmtNat none 3 false).run plainEnv 3 [(10, "a\n")]).sent.head?
      = some ⟨7, 7⟩) ∧
    ((7 : Duration) ≤ 7) :=
  ⟨(first_snapshot_delta_from_run_start plainEnv fmtNat false false 3 3 10
      "a\n" []).2.1 rfl,
   (first_snapshot_delta_from_run_start plainEnv fmtNat false false 3 3 10
      "a\n" []).2.2 (Nat.le_refl 3)⟩

/-- Claim C7: if the supplied pattern does not compile, `TimelnContext::new`
fails with a `Regex` (pattern) error before any line is read, and the whole
program consumes zero lines, leaves both counters at zero, prints nothing
and exits with the non-zero code 1. -/
theorem invalid_pattern_fails_before_reading (engine : RegexEngine)
    (env : ColorEnv) (fmt : TimeFormat) (t0 t1 : Instant) (color plot : Bool)
    (pat : String) (e : String) (input : List (Instant × String))
    (h : engine.compile pat = .error e) :
    TimelnContext.new engine fmt t0 ⟨color, some pat, plot⟩
      = .error (.regex e) ∧
    timelnMain engine env fmt t0 t1 ⟨color, some pat, plot⟩ input
      = ⟨1, 0, 0, 0, []⟩ := by
  constructor
  · simp [TimelnContext.new, h]
  · simp [timelnMain, TimelnContext.new, h]

/-- Witness for claim C7's theorem: the spec scenario pattern `"("` on the
concrete engine — startup fails with the pattern error, and the run on a
one-line input consumes nothing and exits 1. -/
theorem invalid_pattern_fails_before_reading_witness :
    (TimelnContext.new parenEngine fmtNat 0 ⟨false, some "(", false⟩
      = .error (.regex "regex parse error: unclosed group")) ∧
    (timelnMain parenEngine plainEnv fmtNat 0 0 ⟨false, some "(", false⟩
        [(1, "a\n")]
      = ⟨1, 0, 0, 0, []⟩) :=
  invalid_pattern_fails_before_reading parenEngine plainEnv fmtNat 0 0 false
    false "(" "regex parse error: unclosed group" [(1, "a\n")] rfl

/-- Claim C8: `SimpleSummarizer::summarize` (with the colour flag off, as in
the spec's no-colour scenario) is a pure function returning exactly
`[Processed Lines: L, Matches: M, Total Time: T]`, with `T` rendered by the
selected time format. -/
theorem simple_summarizer_exact_string (env : ColorEnv) (L M : Nat)
    (T : Duration) (fmt : TimeFormat) :
    SimpleSummarizer.summarize env false L M T fmt
      = "[Processed Lines: " ++ toString L ++ ", Matches: " ++ toString M ++
        ", Total Time: " ++ fmt T ++ "]" := rfl

/-- Claim C9 counterexample: `DetailedSummarizer::summarize` computes the
average through `total_time.as_nanos() as u64`, which truncates the `u128`
nanosecond count modulo `2^64`. For one line and a total time of
18446744074000000000 ns (about 584.9 years, a representable `Duration`),
the computed average is 290448384 ns, not `total_time / 1`. -/
theorem detailed_avg_truncates_at_2_pow_64 :
    DetailedSummarizer.avgTimePerLine 1 18446744074000000000 = 290448384 ∧
    (18446744074000000000 : Duration) / 1 = 18446744074000000000 ∧
    (290448384 : Duration) ≠ 18446744074000000000 := by
  refine ⟨by decide, by decide, by decide⟩

/-- Claim C9 (amended): the detailed summarizer is deterministic and
side-effect free, and its average time per line is the 64-bit-truncated
nanosecond count divided by `total_lines` when `total_lines > 0` — equal to
`total_elapsed / total_lines` whenever `total_elapsed < 2^64` ns — and the
zero duration when `total_lines = 0`. -/
theorem detailed_summarizer_average (env : ColorEnv) (L M : Nat)
    (T : Duration) (fmt : TimeFormat) :
    (DetailedSummarizer.summarize env false L M T fmt
      = "Processed " ++ toString L ++ " lines in " ++ fmt T ++ " with " ++
        toString M ++ " matches. Average time per line: " ++
        fmt (DetailedSummarizer.avgTimePerLine L T)) ∧
    (0 < L → DetailedSummarizer.avgTimePerLine L T = (T % 2 ^ 64) / L) ∧
    (0 < L → T < 2 ^ 64 → DetailedSummarizer.avgTimePerLine L T = T / L) ∧
    (L = 0 → DetailedSummarizer.avgTimePerLine L T = 0) := by
  refine ⟨rfl, ?_, ?_, ?_⟩
  · intro hL
    simp [DetailedSummarizer.avgTimePerLine, hL]
  · intro hL hT
    unfold DetailedSummarizer.avgTimePerLine
    rw [if_pos hL, Nat.mod_eq_of_lt hT]
  · intro hL
    simp [DetailedSummarizer.avgTimePerLine, hL]

/-- Witness for claim C9's amended theorem: two lines in 10 ns average to
5 ns. -/
theorem detailed_summarizer_average_witness :
    DetailedSummarizer.avgTimePerLine 2 10 = 10 / 2 :=
  (detailed_summarizer_average plainEnv 2 0 10 fmtNat).2.2.1 (by decide)
    (by decide)

/-- Claim C10: for every qualifying line — every line in unfiltered mode,
and every matching line in filter mode when highlighting renders
identically (the no-colour environment) — the printed line is the
`[time: E, delta: D]` annotation, one space, then the raw input line with
leading and trailing Unicode whitespace removed; the trailing newline is
part of that whitespace (so a whitespace-only line, even one padded with
U+00A0 or U+2028, is annotated as the empty string). -/
theorem output_is_annotated_trimmed_line (env : ColorEnv) (fmt : TimeFormat)
    (plot : Bool) (startTime runStart : Instant)
    (input : List (Instant × String)) :
    (((mkCtx false fmt none startTime plot).run env runStart input).output
      = annotatedOutputs fmt startTime runStart input) ∧
    (∀ re : Regex, (∀ s : String, env.red s = s) →
      ((mkCtx false fmt (some re) startTime plot).run env runStart input).output
        = annotatedOutputsFiltered re fmt startTime runStart input) ∧
    (∀ s : String, rustTrim (s ++ "\n") = rustTrim s) ∧
    (rustTrim " \t \n" = "") ∧
    (rustTrim "   a " = "a") := by
  refine ⟨?_, ?_, rustTrim_append_newline, by decide, by decide⟩
  · have h := runLoop_noFilter env (mkCtx false fmt none startTime plot) rfl
      input ⟨0, 0, runStart, [], []⟩
    unfold TimelnContext.run
    rw [h]
    simpa using expectedOutputs_noColor env fmt startTime plot runStart input
  · intro re hred
    have h := runLoop_filter_output env fmt plot startTime re hred input
      ⟨0, 0, runStart, [], []⟩
    unfold TimelnContext.run
    rw [h]
    simp

/-- Witness for claim C10's theorem, exercising the filter-mode conjunct:
with the filter `x` under the no-colour rendering, the matching line
`  x1 \n` is printed trimmed to `x1`, and the non-matching line ` y2\n`
prints nothing. -/
theorem output_is_annotated_trimmed_line_witness :
    ((mkCtx false fmtNat (some regexX) 0 false).run plainEnv 0
        [(1, "  x1 \n"), (2, " y2\n")]).output
      = ["[time: 1, delta: 1] x1"] :=
  ((output_is_annotated_trimmed_line plainEnv fmtNat false 0 0
      [(1, "  x1 \n"), (2, " y2\n")]).2.1 regexX (fun _ => rfl)).trans
    (by decide)

end Timeln
